import Mathlib

/-!
Shallow embedding of `src/graph.py` (module `graph`, version 1.0).

The Python module implements two graph representations behind a common
abstract interface:
  - `Node` / `AdjacencySetGraph`: a list of nodes, each node holding a
    Python `set` of adjacent vertex ids (unweighted edges only);
  - `AdjacencyMatrixGraph`: an `nbvertices × nbvertices` numpy matrix of
    weights, `0` meaning "no edge".

Modelling conventions:
  - Python `int` arguments (vertex ids, weights) become `ℤ`; the fixed
    vertex count `nbvertices` becomes `ℕ`.  Matrix cells are modelled as
    `ℤ` (the numpy float cells only ever hold integral weight values in
    the integral range, where float storage is exact).
  - Python exceptions become an explicit `Err` value.  The module raises
    `ValueError` with distinct messages for the three validation failures
    (out-of-bounds vertex, unsupported weight, self-loop); we give each
    its own constructor, plus `indexError` for a raw `IndexError` coming
    from numpy indexing itself (possible in `get_edge_weight`, which does
    no bounds check of its own).
  - Mutating methods return `Except Err Unit × State`: the state component
    is the heap state after the call, whether or not it raised, so that
    any partial mutation before an exception is visible in the model.
  - A Python `set` becomes `Finset ℤ`; `sorted(s)` becomes
    `Finset.sort (· ≤ ·)`.
  - A numpy 2-D array becomes `List (List ℤ)`; `m[v1][v2]` first indexes
    the row list, then the row, each following Python/numpy index
    semantics (negative indices in `[-len, -1]` wrap, anything else
    raises `IndexError`) — captured by `pyIndex` where the code performs
    no prior bounds check of its own.
-/

inductive Err where
| outOfBounds
| weightNotSupported
| selfLoop
| indexError
deriving DecidableEq

/-- A single node in a graph represented by an adjacency set
(class `Node` in `graph.py`). -/
structure Node where
  vertexid : ℤ
  adjacency_set : Finset ℤ
deriving DecidableEq

def defaultNode : Node := ⟨0, ∅⟩

/-- `Node.add_edge`: rejects a self-loop, otherwise inserts `vertex` into
the adjacency set. -/
def Node.add_edge (nd : Node) (vertex : ℤ) : Except Err Node :=
  if nd.vertexid = vertex then Except.error Err.selfLoop
  else Except.ok ⟨nd.vertexid, insert vertex nd.adjacency_set⟩

/-- `Node.get_adjacent_vertices`: `sorted(self.adjacency_set)`. -/
def Node.get_adjacent_vertices (nd : Node) : List ℤ :=
  nd.adjacency_set.sort (· ≤ ·)

/-- Class `AdjacencySetGraph`: `nbvertices` and `directed` from the base
class `Graph.__init__`, plus the node list. -/
structure AdjacencySetGraph where
  nbvertices : ℕ
  directed : Bool
  vertex_list : List Node
deriving DecidableEq

/-- `AdjacencySetGraph.__init__`: one `Node(i)` per `i in range(nbvertices)`. -/
def AdjacencySetGraph.init (nbvertices : ℕ) (directed : Bool) : AdjacencySetGraph :=
  ⟨nbvertices, directed, (List.range nbvertices).map (fun i : ℕ => ⟨(i : ℤ), ∅⟩)⟩

/-- `self.vertex_list[i]` for an in-range non-negative index (every use in
the source is guarded by a bounds check first). -/
def AdjacencySetGraph.nodeAt (g : AdjacencySetGraph) (i : ℕ) : Node :=
  g.vertex_list.getD i defaultNode

/-- `AdjacencySetGraph.add_edge(v1, v2, weight=1)`: bounds check, then
`weight != 1` check, then `self.vertex_list[v1].add_edge(v2)`, and if the
graph is undirected also `self.vertex_list[v2].add_edge(v1)`.  The state
component records the heap after the call, including the first node
update when the second raises. -/
def AdjacencySetGraph.add_edge (g : AdjacencySetGraph) (v1 v2 weight : ℤ) :
    Except Err Unit × AdjacencySetGraph :=
  if (g.nbvertices : ℤ) ≤ v1 ∨ (g.nbvertices : ℤ) ≤ v2 ∨ v1 < 0 ∨ v2 < 0 then
    (Except.error Err.outOfBounds, g)
  else if weight ≠ 1 then
    (Except.error Err.weightNotSupported, g)
  else
    match (g.nodeAt v1.toNat).add_edge v2 with
    | Except.error e => (Except.error e, g)
    | Except.ok n1 =>
      let g1 : AdjacencySetGraph := ⟨g.nbvertices, g.directed, g.vertex_list.set v1.toNat n1⟩
      if g.directed = false then
        match (g1.nodeAt v2.toNat).add_edge v1 with
        | Except.error e => (Except.error e, g1)
        | Except.ok n2 =>
          (Except.ok (), ⟨g.nbvertices, g.directed, g1.vertex_list.set v2.toNat n2⟩)
      else
        (Except.ok (), g1)

/-- `AdjacencySetGraph.get_adjacent_vertices(v)`: bounds check, then the
node's sorted adjacency set. -/
def AdjacencySetGraph.get_adjacent_vertices (g : AdjacencySetGraph) (v : ℤ) :
    Except Err (List ℤ) :=
  if v < 0 ∨ (g.nbvertices : ℤ) ≤ v then Except.error Err.outOfBounds
  else Except.ok ((g.nodeAt v.toNat).get_adjacent_vertices)

/-- `AdjacencySetGraph.get_indegree(v)`: bounds check, then counts
`i in range(nbvertices)` with `v in self.get_adjacent_vertices(i)`.  The
inner call is the public method; its own bounds check always passes for
`i in range(nbvertices)`, so the error branch below is unreachable. -/
def AdjacencySetGraph.get_indegree (g : AdjacencySetGraph) (v : ℤ) : Except Err ℕ :=
  if v < 0 ∨ (g.nbvertices : ℤ) ≤ v then Except.error Err.outOfBounds
  else
    Except.ok (((List.range g.nbvertices).filter (fun i : ℕ =>
      match g.get_adjacent_vertices (i : ℤ) with
      | Except.ok l => decide (v ∈ l)
      | Except.error _ => false)).length)

/-- `AdjacencySetGraph.get_edge_weight(v1, v2)`: literally `return 1`,
no checks of any kind, total. -/
def AdjacencySetGraph.get_edge_weight (_g : AdjacencySetGraph) (_v1 _v2 : ℤ) : ℤ := 1

/-- Read cell `m[i][j]` at non-negative in-range indices (used where the
source has already bounds-checked). -/
def matGet (m : List (List ℤ)) (i j : ℕ) : ℤ := (m.getD i []).getD j 0

/-- Write cell `m[i][j] = w` at non-negative in-range indices. -/
def matSet (m : List (List ℤ)) (i j : ℕ) (w : ℤ) : List (List ℤ) :=
  m.set i ((m.getD i []).set j w)

/-- Class `AdjacencyMatrixGraph`. -/
structure AdjacencyMatrixGraph where
  nbvertices : ℕ
  directed : Bool
  matrix : List (List ℤ)
deriving DecidableEq

/-- `AdjacencyMatrixGraph.__init__`: `np.zeros((nbvertices, nbvertices))`. -/
def AdjacencyMatrixGraph.init (nbvertices : ℕ) (directed : Bool) : AdjacencyMatrixGraph :=
  ⟨nbvertices, directed, List.replicate nbvertices (List.replicate nbvertices 0)⟩

/-- `AdjacencyMatrixGraph.add_edge(v1, v2, weight=1)`: bounds check, then
`weight < 1` check, then `matrix[v1][v2] = weight`, and if undirected also
`matrix[v2][v1] = weight`. -/
def AdjacencyMatrixGraph.add_edge (g : AdjacencyMatrixGraph) (v1 v2 weight : ℤ) :
    Except Err Unit × AdjacencyMatrixGraph :=
  if (g.nbvertices : ℤ) ≤ v1 ∨ (g.nbvertices : ℤ) ≤ v2 ∨ v1 < 0 ∨ v2 < 0 then
    (Except.error Err.outOfBounds, g)
  else if weight < 1 then
    (Except.error Err.weightNotSupported, g)
  else
    let m1 := matSet g.matrix v1.toNat v2.toNat weight
    if g.directed = false then
      (Except.ok (), ⟨g.nbvertices, g.directed, matSet m1 v2.toNat v1.toNat weight⟩)
    else
      (Except.ok (), ⟨g.nbvertices, g.directed, m1⟩)

/-- `AdjacencyMatrixGraph.get_adjacent_vertices(v)`: bounds check, then
collects `i in range(nbvertices)` with `matrix[v][i] > 0`. -/
def AdjacencyMatrixGraph.get_adjacent_vertices (g : AdjacencyMatrixGraph) (v : ℤ) :
    Except Err (List ℤ) :=
  if v < 0 ∨ (g.nbvertices : ℤ) ≤ v then Except.error Err.outOfBounds
  else
    Except.ok (((List.range g.nbvertices).filter
      (fun i : ℕ => decide (0 < matGet g.matrix v.toNat i))).map (fun i : ℕ => (i : ℤ)))

/-- `AdjacencyMatrixGraph.get_indegree(v)`: bounds check, then counts
`i in range(nbvertices)` with `matrix[i][v] > 0`. -/
def AdjacencyMatrixGraph.get_indegree (g : AdjacencyMatrixGraph) (v : ℤ) : Except Err ℕ :=
  if v < 0 ∨ (g.nbvertices : ℤ) ≤ v then Except.error Err.outOfBounds
  else
    Except.ok (((List.range g.nbvertices).filter
      (fun i : ℕ => decide (0 < matGet g.matrix i v.toNat))).length)

/-- Python/numpy 1-D indexing on a container of length `n`: a
non-negative index must be `< n`, a negative index in `[-n, -1]` wraps to
`n + i`, anything else raises `IndexError`. -/
def pyIndex (n : ℕ) (i : ℤ) : Except Err ℕ :=
  if 0 ≤ i ∧ i < (n : ℤ) then Except.ok i.toNat
  else if -(n : ℤ) ≤ i ∧ i < 0 then Except.ok (i + (n : ℤ)).toNat
  else Except.error Err.indexError

/-- `AdjacencyMatrixGraph.get_edge_weight(v1, v2)`: literally
`return self.matrix[v1][v2]` with no bounds check of its own, so both
index applications follow raw Python/numpy index semantics. -/
def AdjacencyMatrixGraph.get_edge_weight (g : AdjacencyMatrixGraph) (v1 v2 : ℤ) :
    Except Err ℤ :=
  match pyIndex g.matrix.length v1 with
  | Except.error e => Except.error e
  | Except.ok i =>
    match pyIndex (g.matrix.getD i []).length v2 with
    | Except.error e => Except.error e
    | Except.ok j => Except.ok ((g.matrix.getD i []).getD j 0)

/-- Well-formedness invariant of the set representation, established by
`__init__` and preserved by `add_edge`: the node list has `nbvertices`
entries and node `i` carries vertex id `i`. -/
def AdjacencySetGraph.WF (g : AdjacencySetGraph) : Prop :=
  g.vertex_list.length = g.nbvertices ∧
  ∀ i < g.vertex_list.length, (g.nodeAt i).vertexid = (i : ℤ)

/-- Well-formedness invariant of the matrix representation: the matrix is
square of size `nbvertices`. -/
def AdjacencyMatrixGraph.WF (g : AdjacencyMatrixGraph) : Prop :=
  g.matrix.length = g.nbvertices ∧ ∀ r ∈ g.matrix, r.length = g.nbvertices

instance exceptDecEq {ε α : Type} [DecidableEq ε] [DecidableEq α] :
    DecidableEq (Except ε α) := fun a b =>
  match a, b with
  | Except.ok x, Except.ok y =>
    decidable_of_iff (x = y) ⟨fun h => by rw [h], fun h => by injection h⟩
  | Except.ok _, Except.error _ => isFalse (fun h => Except.noConfusion h)
  | Except.error _, Except.ok _ => isFalse (fun h => Except.noConfusion h)
  | Except.error e, Except.error f =>
    decidable_of_iff (e = f) ⟨fun h => by rw [h], fun h => by injection h⟩

instance (g : AdjacencySetGraph) : Decidable g.WF := by
  unfold AdjacencySetGraph.WF; infer_instance

instance (g : AdjacencyMatrixGraph) : Decidable g.WF := by
  unfold AdjacencyMatrixGraph.WF; infer_instance

/-- Specification-side count used by the indegree-consistency claim: the
number of distinct `u in [0, n)` whose adjacency query answers with a
list containing `v`. -/
def sourcesInto (n : ℕ) (adj : ℤ → Except Err (List ℤ)) (v : ℤ) : ℕ :=
  ((List.range n).filter (fun u : ℕ =>
    match adj (u : ℤ) with
    | Except.ok l => decide (v ∈ l)
    | Except.error _ => false)).length

/-! ### List helper lemmas -/

lemma getD_set_self {α : Type} (l : List α) (i : ℕ) (a d : α) (h : i < l.length) :
    (l.set i a).getD i d = a := by
  simp [List.getD_eq_getElem?_getD, List.getElem?_set_self h]

lemma getD_set_ne {α : Type} (l : List α) (i j : ℕ) (a d : α) (h : i ≠ j) :
    (l.set i a).getD j d = l.getD j d := by
  simp [List.getD_eq_getElem?_getD, List.getElem?_set_ne h]

lemma getD_mem {α : Type} (l : List α) (i : ℕ) (d : α) (h : i < l.length) :
    l.getD i d ∈ l := by
  rw [List.getD_eq_getElem?_getD, List.getElem?_eq_getElem h]
  exact List.getElem_mem h

/-! ### Evaluation lemmas for `pyIndex` -/

lemma pyIndex_ok (n : ℕ) (i : ℤ) (h0 : 0 ≤ i) (hn : i < (n : ℤ)) :
    pyIndex n i = Except.ok i.toNat := by
  unfold pyIndex
  rw [if_pos ⟨h0, hn⟩]

lemma pyIndex_neg (n : ℕ) (i : ℤ) (h0 : -(n : ℤ) ≤ i) (hn : i < 0) :
    pyIndex n i = Except.ok (i + (n : ℤ)).toNat := by
  unfold pyIndex
  rw [if_neg (by omega), if_pos ⟨h0, hn⟩]

lemma pyIndex_err (n : ℕ) (i : ℤ) (h : i < -(n : ℤ) ∨ (n : ℤ) ≤ i) :
    pyIndex n i = Except.error Err.indexError := by
  unfold pyIndex
  rw [if_neg (by omega), if_neg (by omega)]

/-! ### Evaluation lemmas for `matGet` / `matSet` -/

lemma length_matSet (m : List (List ℤ)) (i j : ℕ) (w : ℤ) :
    (matSet m i j w).length = m.length := by
  simp [matSet]

lemma getD_matSet_row_self (m : List (List ℤ)) (i j : ℕ) (w : ℤ) (hi : i < m.length) :
    (matSet m i j w).getD i [] = (m.getD i []).set j w := by
  unfold matSet
  exact getD_set_self _ _ _ _ hi

lemma getD_matSet_row_ne (m : List (List ℤ)) (i j a : ℕ) (w : ℤ) (ha : i ≠ a) :
    (matSet m i j w).getD a [] = m.getD a [] := by
  unfold matSet
  exact getD_set_ne _ _ _ _ _ ha

lemma length_getD_matSet (m : List (List ℤ)) (i j a : ℕ) (w : ℤ) (hi : i < m.length) :
    ((matSet m i j w).getD a []).length = (m.getD a []).length := by
  by_cases hai : i = a
  · subst hai
    rw [getD_matSet_row_self _ _ _ _ hi, List.length_set]
  · rw [getD_matSet_row_ne _ _ _ _ _ hai]

lemma matGet_matSet_self (m : List (List ℤ)) (i j : ℕ) (w : ℤ)
    (hi : i < m.length) (hj : j < (m.getD i []).length) :
    matGet (matSet m i j w) i j = w := by
  unfold matGet
  rw [getD_matSet_row_self _ _ _ _ hi]
  exact getD_set_self _ _ _ _ hj

lemma matGet_matSet_ne (m : List (List ℤ)) (i j a b : ℕ) (w : ℤ)
    (h : ¬(a = i ∧ b = j)) :
    matGet (matSet m i j w) a b = matGet m a b := by
  unfold matGet
  by_cases hai : a = i
  · subst hai
    have hbj : b ≠ j := fun hb => h ⟨rfl, hb⟩
    by_cases hlen : a < m.length
    · rw [getD_matSet_row_self _ _ _ _ hlen]
      rw [getD_set_ne _ _ _ _ _ (fun hh => hbj hh.symm)]
    · have hms : matSet m a j w = m := by
        unfold matSet
        exact List.set_eq_of_length_le (by omega)
      rw [hms]
  · rw [getD_matSet_row_ne _ _ _ _ _ (fun hh => hai hh.symm)]

lemma matSet_idem (m : List (List ℤ)) (i j : ℕ) (w : ℤ) :
    matSet (matSet m i j w) i j w = matSet m i j w := by
  by_cases hi : i < m.length
  · unfold matSet
    rw [getD_set_self _ _ _ _ hi, List.set_set, List.set_set]
  · have hms : matSet m i j w = m := by
      unfold matSet
      exact List.set_eq_of_length_le (by omega)
    rw [hms]
    exact hms

lemma matSet_pair_idem (m : List (List ℤ)) (a b : ℕ) (w : ℤ)
    (ha : a < m.length) (hb : b < m.length) (hab : a ≠ b) :
    matSet (matSet (matSet (matSet m a b w) b a w) a b w) b a w
      = matSet (matSet m a b w) b a w := by
  have hba : b ≠ a := fun h => hab h.symm
  set Ra := (m.getD a []).set b w with hRa
  set Rb := (m.getD b []).set a w with hRb
  have e1 : Ra.set b w = Ra := by
    rw [hRa]
    exact List.set_set _ _ _ _
  have e2 : Rb.set a w = Rb := by
    rw [hRb]
    exact List.set_set _ _ _ _
  have hm1 : matSet m a b w = m.set a Ra := rfl
  have hm2 : matSet (m.set a Ra) b a w = (m.set a Ra).set b Rb := by
    unfold matSet
    rw [getD_set_ne _ _ _ _ _ hab]
  rw [hm1, hm2]
  have hga : ((m.set a Ra).set b Rb).getD a [] = Ra := by
    rw [getD_set_ne _ _ _ _ _ hba]
    exact getD_set_self _ _ _ _ ha
  have hgb2 : ((m.set a Ra).set b Rb).getD b [] = Rb :=
    getD_set_self _ _ _ _ (by rw [List.length_set]; exact hb)
  have h3 : matSet ((m.set a Ra).set b Rb) a b w = (m.set a Ra).set b Rb := by
    unfold matSet
    rw [hga, e1, List.set_comm Rb Ra _ hba, List.set_set]
  rw [h3]
  unfold matSet
  rw [hgb2, e2, List.set_set]

/-! ### Well-formedness: establishment and preservation -/

lemma matWF_matSet (n : ℕ) (m : List (List ℤ)) (i j : ℕ) (w : ℤ)
    (h1 : m.length = n) (h2 : ∀ r ∈ m, r.length = n) :
    (matSet m i j w).length = n ∧ ∀ r ∈ matSet m i j w, r.length = n := by
  refine ⟨by rw [length_matSet, h1], ?_⟩
  intro r hr
  by_cases hi : i < m.length
  · rcases List.mem_or_eq_of_mem_set hr with h | h
    · exact h2 r h
    · subst h
      rw [List.length_set]
      exact h2 _ (getD_mem _ _ _ hi)
  · unfold matSet at hr
    rw [List.set_eq_of_length_le (by omega)] at hr
    exact h2 r hr

lemma matInit_WF (n : ℕ) (d : Bool) : (AdjacencyMatrixGraph.init n d).WF := by
  constructor
  · simp [AdjacencyMatrixGraph.init]
  · intro r hr
    simp only [AdjacencyMatrixGraph.init] at hr
    rw [List.eq_of_mem_replicate hr]
    simp [AdjacencyMatrixGraph.init]

lemma setInit_WF (n : ℕ) (d : Bool) : (AdjacencySetGraph.init n d).WF := by
  constructor
  · simp [AdjacencySetGraph.init]
  · intro i hi
    have hlen : (AdjacencySetGraph.init n d).vertex_list.length = n := by
      simp [AdjacencySetGraph.init]
    rw [hlen] at hi
    unfold AdjacencySetGraph.nodeAt AdjacencySetGraph.init
    rw [List.getD_eq_getElem?_getD, List.getElem?_map, List.getElem?_range hi]
    rfl

/-! ### Evaluation lemmas for `Node.add_edge` -/

lemma nodeAddEdge_ok (nd : Node) (v : ℤ) (h : nd.vertexid ≠ v) :
    nd.add_edge v = Except.ok ⟨nd.vertexid, insert v nd.adjacency_set⟩ := by
  unfold Node.add_edge
  rw [if_neg h]

lemma nodeAddEdge_self (nd : Node) (v : ℤ) (h : nd.vertexid = v) :
    nd.add_edge v = Except.error Err.selfLoop := by
  unfold Node.add_edge
  rw [if_pos h]

/-! ### Evaluation lemmas for `AdjacencyMatrixGraph.add_edge` -/

lemma matAddEdge_oob (g : AdjacencyMatrixGraph) (v1 v2 w : ℤ)
    (h : (g.nbvertices : ℤ) ≤ v1 ∨ (g.nbvertices : ℤ) ≤ v2 ∨ v1 < 0 ∨ v2 < 0) :
    g.add_edge v1 v2 w = (Except.error Err.outOfBounds, g) := by
  unfold AdjacencyMatrixGraph.add_edge
  rw [if_pos h]

lemma matAddEdge_badweight (g : AdjacencyMatrixGraph) (v1 v2 w : ℤ)
    (hb : ¬((g.nbvertices : ℤ) ≤ v1 ∨ (g.nbvertices : ℤ) ≤ v2 ∨ v1 < 0 ∨ v2 < 0))
    (hw : w < 1) :
    g.add_edge v1 v2 w = (Except.error Err.weightNotSupported, g) := by
  unfold AdjacencyMatrixGraph.add_edge
  rw [if_neg hb, if_pos hw]

lemma matAddEdge_ok (g : AdjacencyMatrixGraph) (v1 v2 w : ℤ)
    (hb : ¬((g.nbvertices : ℤ) ≤ v1 ∨ (g.nbvertices : ℤ) ≤ v2 ∨ v1 < 0 ∨ v2 < 0))
    (hw : ¬ w < 1) :
    g.add_edge v1 v2 w =
      (Except.ok (), ⟨g.nbvertices, g.directed,
        if g.directed = false
        then matSet (matSet g.matrix v1.toNat v2.toNat w) v2.toNat v1.toNat w
        else matSet g.matrix v1.toNat v2.toNat w⟩) := by
  unfold AdjacencyMatrixGraph.add_edge
  rw [if_neg hb, if_neg hw]
  by_cases hd : g.directed = false <;> simp [hd]

lemma matAddEdge_ok_inv (g : AdjacencyMatrixGraph) (v1 v2 w : ℤ)
    (g' : AdjacencyMatrixGraph) (h : g.add_edge v1 v2 w = (Except.ok (), g')) :
    0 ≤ v1 ∧ v1 < (g.nbvertices : ℤ) ∧ 0 ≤ v2 ∧ v2 < (g.nbvertices : ℤ) ∧ 1 ≤ w := by
  by_cases hb : (g.nbvertices : ℤ) ≤ v1 ∨ (g.nbvertices : ℤ) ≤ v2 ∨ v1 < 0 ∨ v2 < 0
  · rw [matAddEdge_oob _ _ _ _ hb] at h
    simp at h
  · by_cases hw : w < 1
    · rw [matAddEdge_badweight _ _ _ _ hb hw] at h
      simp at h
    · exact ⟨by omega, by omega, by omega, by omega, by omega⟩

lemma matAddEdge_WF (g : AdjacencyMatrixGraph) (v1 v2 w : ℤ) (h : g.WF) :
    ((g.add_edge v1 v2 w).2).WF := by
  by_cases hb : (g.nbvertices : ℤ) ≤ v1 ∨ (g.nbvertices : ℤ) ≤ v2 ∨ v1 < 0 ∨ v2 < 0
  · rw [matAddEdge_oob _ _ _ _ hb]
    exact h
  · by_cases hw : w < 1
    · rw [matAddEdge_badweight _ _ _ _ hb hw]
      exact h
    · rw [matAddEdge_ok _ _ _ _ hb hw]
      obtain ⟨h1, h2⟩ := h
      by_cases hd : g.directed = false
      · rw [if_pos hd]
        have w1 := matWF_matSet g.nbvertices g.matrix v1.toNat v2.toNat w h1 h2
        have w2 := matWF_matSet g.nbvertices _ v2.toNat v1.toNat w w1.1 w1.2
        exact ⟨w2.1, w2.2⟩
      · rw [if_neg hd]
        have w1 := matWF_matSet g.nbvertices g.matrix v1.toNat v2.toNat w h1 h2
        exact ⟨w1.1, w1.2⟩

/-! ### Evaluation lemmas for `AdjacencySetGraph.add_edge` -/

lemma setAddEdge_oob (g : AdjacencySetGraph) (v1 v2 w : ℤ)
    (h : (g.nbvertices : ℤ) ≤ v1 ∨ (g.nbvertices : ℤ) ≤ v2 ∨ v1 < 0 ∨ v2 < 0) :
    g.add_edge v1 v2 w = (Except.error Err.outOfBounds, g) := by
  unfold AdjacencySetGraph.add_edge
  rw [if_pos h]

lemma setAddEdge_badweight (g : AdjacencySetGraph) (v1 v2 w : ℤ)
    (hb : ¬((g.nbvertices : ℤ) ≤ v1 ∨ (g.nbvertices : ℤ) ≤ v2 ∨ v1 < 0 ∨ v2 < 0))
    (hw : w ≠ 1) :
    g.add_edge v1 v2 w = (Except.error Err.weightNotSupported, g) := by
  unfold AdjacencySetGraph.add_edge
  rw [if_neg hb, if_pos hw]

lemma setAddEdge_selfloop (g : AdjacencySetGraph) (v : ℤ) (hWF : g.WF)
    (h0 : 0 ≤ v) (hn : v < (g.nbvertices : ℤ)) :
    g.add_edge v v 1 = (Except.error Err.selfLoop, g) := by
  have hlen : g.vertex_list.length = g.nbvertices := hWF.1
  have ha : v.toNat < g.vertex_list.length := by omega
  have hid : (g.nodeAt v.toNat).vertexid = v := by
    rw [hWF.2 _ ha]
    omega
  unfold AdjacencySetGraph.add_edge
  rw [if_neg (by omega), if_neg (by omega)]
  rw [nodeAddEdge_self _ _ hid]

/-- State of the set graph after a successful in-bounds `add_edge v1 v2 1`
with `v1 ≠ v2` (a proof-side characterization, not a source translation). -/
def setAfter (g : AdjacencySetGraph) (v1 v2 : ℤ) : AdjacencySetGraph :=
  let na : Node := ⟨(g.nodeAt v1.toNat).vertexid, insert v2 (g.nodeAt v1.toNat).adjacency_set⟩
  let nb : Node := ⟨(g.nodeAt v2.toNat).vertexid, insert v1 (g.nodeAt v2.toNat).adjacency_set⟩
  if g.directed = false then
    ⟨g.nbvertices, g.directed, (g.vertex_list.set v1.toNat na).set v2.toNat nb⟩
  else
    ⟨g.nbvertices, g.directed, g.vertex_list.set v1.toNat na⟩

lemma setAddEdge_eq (g : AdjacencySetGraph) (v1 v2 : ℤ)
    (hWF : g.WF) (h1 : 0 ≤ v1) (h1n : v1 < (g.nbvertices : ℤ))
    (h2 : 0 ≤ v2) (h2n : v2 < (g.nbvertices : ℤ)) (hne : v1 ≠ v2) :
    g.add_edge v1 v2 1 = (Except.ok (), setAfter g v1 v2) := by
  have hlen : g.vertex_list.length = g.nbvertices := hWF.1
  have ha : v1.toNat < g.vertex_list.length := by omega
  have hb : v2.toNat < g.vertex_list.length := by omega
  have hab : v1.toNat ≠ v2.toNat := by omega
  have hid1 : (g.nodeAt v1.toNat).vertexid = v1 := by
    rw [hWF.2 _ ha]
    omega
  have hid2 : (g.nodeAt v2.toNat).vertexid = v2 := by
    rw [hWF.2 _ hb]
    omega
  have hnode2 :
      (AdjacencySetGraph.mk g.nbvertices g.directed
        (g.vertex_list.set v1.toNat
          ⟨(g.nodeAt v1.toNat).vertexid,
            insert v2 (g.nodeAt v1.toNat).adjacency_set⟩)).nodeAt v2.toNat
        = g.nodeAt v2.toNat := by
    unfold AdjacencySetGraph.nodeAt
    exact getD_set_ne _ _ _ _ _ hab
  unfold AdjacencySetGraph.add_edge
  rw [if_neg (by omega), if_neg (by omega)]
  rw [nodeAddEdge_ok _ _ (by rw [hid1]; exact hne)]
  dsimp only
  rw [hnode2]
  rw [nodeAddEdge_ok _ _ (by rw [hid2]; exact fun h => hne h.symm)]
  unfold setAfter
  by_cases hd : g.directed = false <;> simp [hd]

lemma setWF_mk_set (g : AdjacencySetGraph) (a : ℕ) (nd : Node)
    (hWF : g.WF) (hid : nd.vertexid = (a : ℤ)) :
    (AdjacencySetGraph.mk g.nbvertices g.directed (g.vertex_list.set a nd)).WF := by
  constructor
  · dsimp only
    rw [List.length_set]
    exact hWF.1
  · intro i hi
    dsimp only at hi
    rw [List.length_set] at hi
    unfold AdjacencySetGraph.nodeAt
    dsimp only
    by_cases hia : i = a
    · subst hia
      rw [getD_set_self _ _ _ _ hi]
      exact hid
    · rw [getD_set_ne _ _ _ _ _ (fun hh => hia hh.symm)]
      exact hWF.2 i hi

lemma setAfter_WF (g : AdjacencySetGraph) (v1 v2 : ℤ)
    (hWF : g.WF) (h1 : 0 ≤ v1) (h1n : v1 < (g.nbvertices : ℤ))
    (h2 : 0 ≤ v2) (h2n : v2 < (g.nbvertices : ℤ)) :
    (setAfter g v1 v2).WF := by
  have hlen : g.vertex_list.length = g.nbvertices := hWF.1
  have ha : v1.toNat < g.vertex_list.length := by omega
  have hb : v2.toNat < g.vertex_list.length := by omega
  have hidna : (g.nodeAt v1.toNat).vertexid = (v1.toNat : ℤ) := hWF.2 _ ha
  have hidnb : (g.nodeAt v2.toNat).vertexid = (v2.toNat : ℤ) := hWF.2 _ hb
  unfold setAfter
  by_cases hd : g.directed = false
  · rw [if_pos hd]
    exact setWF_mk_set
      (AdjacencySetGraph.mk g.nbvertices g.directed
        (g.vertex_list.set v1.toNat
          ⟨(g.nodeAt v1.toNat).vertexid, insert v2 (g.nodeAt v1.toNat).adjacency_set⟩))
      v2.toNat _ (setWF_mk_set g v1.toNat _ hWF hidna) hidnb
  · rw [if_neg hd]
    exact setWF_mk_set g v1.toNat _ hWF hidna

lemma setAfter_nbvertices (g : AdjacencySetGraph) (v1 v2 : ℤ) :
    (setAfter g v1 v2).nbvertices = g.nbvertices := by
  unfold setAfter
  by_cases hd : g.directed = false <;> simp [hd]

lemma setAfter_directed (g : AdjacencySetGraph) (v1 v2 : ℤ) :
    (setAfter g v1 v2).directed = g.directed := by
  unfold setAfter
  by_cases hd : g.directed = false <;> simp [hd]

lemma setAddEdge_ok_inv (g : AdjacencySetGraph) (v1 v2 w : ℤ)
    (g' : AdjacencySetGraph) (hWF : g.WF)
    (h : g.add_edge v1 v2 w = (Except.ok (), g')) :
    0 ≤ v1 ∧ v1 < (g.nbvertices : ℤ) ∧ 0 ≤ v2 ∧ v2 < (g.nbvertices : ℤ) ∧
      w = 1 ∧ v1 ≠ v2 := by
  by_cases hb : (g.nbvertices : ℤ) ≤ v1 ∨ (g.nbvertices : ℤ) ≤ v2 ∨ v1 < 0 ∨ v2 < 0
  · rw [setAddEdge_oob _ _ _ _ hb] at h
    simp at h
  · by_cases hw : w ≠ 1
    · rw [setAddEdge_badweight _ _ _ _ hb hw] at h
      simp at h
    · push_neg at hw
      subst hw
      by_cases hv : v1 = v2
      · subst hv
        rw [setAddEdge_selfloop g v1 hWF (by omega) (by omega)] at h
        simp at h
      · exact ⟨by omega, by omega, by omega, by omega, rfl, hv⟩

lemma setAddEdge_WF (g : AdjacencySetGraph) (v1 v2 w : ℤ) (hWF : g.WF) :
    ((g.add_edge v1 v2 w).2).WF := by
  by_cases hb : (g.nbvertices : ℤ) ≤ v1 ∨ (g.nbvertices : ℤ) ≤ v2 ∨ v1 < 0 ∨ v2 < 0
  · rw [setAddEdge_oob _ _ _ _ hb]
    exact hWF
  · by_cases hw : w ≠ 1
    · rw [setAddEdge_badweight _ _ _ _ hb hw]
      exact hWF
    · push_neg at hw
      subst hw
      by_cases hv : v1 = v2
      · subst hv
        rw [setAddEdge_selfloop g v1 hWF (by omega) (by omega)]
        exact hWF
      · rw [setAddEdge_eq g v1 v2 hWF (by omega) (by omega) (by omega) (by omega) hv]
        exact setAfter_WF g v1 v2 hWF (by omega) (by omega) (by omega) (by omega)

/-! ### Evaluation lemmas for the query operations -/

lemma setGetAdj_eval (g : AdjacencySetGraph) (v : ℤ)
    (h0 : 0 ≤ v) (hn : v < (g.nbvertices : ℤ)) :
    g.get_adjacent_vertices v = Except.ok ((g.nodeAt v.toNat).get_adjacent_vertices) := by
  unfold AdjacencySetGraph.get_adjacent_vertices
  rw [if_neg (by omega)]

lemma setGetAdj_oob (g : AdjacencySetGraph) (v : ℤ)
    (h : v < 0 ∨ (g.nbvertices : ℤ) ≤ v) :
    g.get_adjacent_vertices v = Except.error Err.outOfBounds := by
  unfold AdjacencySetGraph.get_adjacent_vertices
  rw [if_pos h]

lemma setGetIndegree_oob (g : AdjacencySetGraph) (v : ℤ)
    (h : v < 0 ∨ (g.nbvertices : ℤ) ≤ v) :
    g.get_indegree v = Except.error Err.outOfBounds := by
  unfold AdjacencySetGraph.get_indegree
  rw [if_pos h]

lemma matGetAdj_eval (g : AdjacencyMatrixGraph) (v : ℤ)
    (h0 : 0 ≤ v) (hn : v < (g.nbvertices : ℤ)) :
    g.get_adjacent_vertices v =
      Except.ok (((List.range g.nbvertices).filter
        (fun i : ℕ => decide (0 < matGet g.matrix v.toNat i))).map (fun i : ℕ => (i : ℤ))) := by
  unfold AdjacencyMatrixGraph.get_adjacent_vertices
  rw [if_neg (by omega)]

lemma matGetAdj_oob (g : AdjacencyMatrixGraph) (v : ℤ)
    (h : v < 0 ∨ (g.nbvertices : ℤ) ≤ v) :
    g.get_adjacent_vertices v = Except.error Err.outOfBounds := by
  unfold AdjacencyMatrixGraph.get_adjacent_vertices
  rw [if_pos h]

lemma matGetIndegree_oob (g : AdjacencyMatrixGraph) (v : ℤ)
    (h : v < 0 ∨ (g.nbvertices : ℤ) ≤ v) :
    g.get_indegree v = Except.error Err.outOfBounds := by
  unfold AdjacencyMatrixGraph.get_indegree
  rw [if_pos h]

lemma matGetEdgeWeight_eval (g : AdjacencyMatrixGraph) (v1 v2 : ℤ) (hWF : g.WF)
    (h1 : 0 ≤ v1) (h1n : v1 < (g.nbvertices : ℤ))
    (h2 : 0 ≤ v2) (h2n : v2 < (g.nbvertices : ℤ)) :
    g.get_edge_weight v1 v2 = Except.ok (matGet g.matrix v1.toNat v2.toNat) := by
  have hlen : g.matrix.length = g.nbvertices := hWF.1
  have hrow : (g.matrix.getD v1.toNat []).length = g.nbvertices :=
    hWF.2 _ (getD_mem _ _ _ (by omega))
  unfold AdjacencyMatrixGraph.get_edge_weight
  rw [pyIndex_ok _ _ h1 (by omega)]
  dsimp only
  rw [pyIndex_ok _ _ h2 (by omega)]
  rfl

lemma nodeAddEdge_error (nd : Node) (v : ℤ) (e : Err)
    (h : nd.add_edge v = Except.error e) : e = Err.selfLoop := by
  unfold Node.add_edge at h
  by_cases hc : nd.vertexid = v
  · rw [if_pos hc] at h
    injection h with h'
    exact h'.symm
  · rw [if_neg hc] at h
    exact Except.noConfusion h

lemma matGet_matSet_pair (m : List (List ℤ)) (n a b : ℕ) (w : ℤ)
    (hlen : m.length = n) (hrows : ∀ r ∈ m, r.length = n) (ha : a < n) (hb : b < n) :
    matGet (matSet (matSet m a b w) b a w) a b = w ∧
    matGet (matSet (matSet m a b w) b a w) b a = w ∧
    matGet (matSet m a b w) a b = w := by
  have hrow : ∀ k, k < m.length → (m.getD k []).length = n :=
    fun k hk => hrows _ (getD_mem _ _ _ hk)
  have ham : a < m.length := by omega
  have hbm : b < m.length := by omega
  have h3 : matGet (matSet m a b w) a b = w :=
    matGet_matSet_self m a b w ham (by rw [hrow a ham]; omega)
  refine ⟨?_, ?_, h3⟩
  · by_cases hab : a = b
    · subst hab
      exact matGet_matSet_self _ _ _ _ (by rw [length_matSet]; omega)
        (by rw [length_getD_matSet _ _ _ _ _ ham, hrow a ham]; omega)
    · rw [matGet_matSet_ne _ _ _ _ _ _ (fun hh => hab hh.1)]
      exact h3
  · exact matGet_matSet_self _ _ _ _ (by rw [length_matSet]; omega)
      (by rw [length_getD_matSet _ _ _ _ _ ham, hrow b hbm]; omega)

/-! ### Claim theorems -/

/-- Claim C9: the adjacency-set `get_edge_weight` returns 1 for every pair
of arguments: it is a total function of the embedded state, performs no
bounds check and cannot raise, and in particular never returns a "no
edge" sentinel. -/
theorem set_get_edge_weight_always_one (g : AdjacencySetGraph) (v1 v2 : ℤ) :
    g.get_edge_weight v1 v2 = 1 := rfl

/-- Claim C3: in both representations, `add_edge`, `get_adjacent_vertices`
and `get_indegree` answer with the out-of-bounds error whenever a vertex
index argument is negative or at least the vertex count. -/
theorem out_of_bounds_rejection (gs : AdjacencySetGraph) (gm : AdjacencyMatrixGraph)
    (v v1 v2 w : ℤ) (hNs : 0 < gs.nbvertices) (hNm : 0 < gm.nbvertices) :
    ((v1 < 0 ∨ (gs.nbvertices : ℤ) ≤ v1 ∨ v2 < 0 ∨ (gs.nbvertices : ℤ) ≤ v2) →
      (gs.add_edge v1 v2 w).1 = Except.error Err.outOfBounds) ∧
    ((v < 0 ∨ (gs.nbvertices : ℤ) ≤ v) →
      gs.get_adjacent_vertices v = Except.error Err.outOfBounds ∧
      gs.get_indegree v = Except.error Err.outOfBounds) ∧
    ((v1 < 0 ∨ (gm.nbvertices : ℤ) ≤ v1 ∨ v2 < 0 ∨ (gm.nbvertices : ℤ) ≤ v2) →
      (gm.add_edge v1 v2 w).1 = Except.error Err.outOfBounds) ∧
    ((v < 0 ∨ (gm.nbvertices : ℤ) ≤ v) →
      gm.get_adjacent_vertices v = Except.error Err.outOfBounds ∧
      gm.get_indegree v = Except.error Err.outOfBounds) := by
  refine ⟨?_, ?_, ?_, ?_⟩
  · intro h
    rw [setAddEdge_oob _ _ _ _ (by omega)]
  · intro h
    exact ⟨setGetAdj_oob _ _ h, setGetIndegree_oob _ _ h⟩
  · intro h
    rw [matAddEdge_oob _ _ _ _ (by omega)]
  · intro h
    exact ⟨matGetAdj_oob _ _ h, matGetIndegree_oob _ _ h⟩

/-- Claim C4: with in-bounds vertex arguments, `add_edge` answers with the
weight-not-supported error exactly when the weight is incompatible with
the representation: different from 1 for the set-backed graph, below 1
for the matrix-backed graph. -/
theorem weight_not_supported_iff (gs : AdjacencySetGraph) (gm : AdjacencyMatrixGraph)
    (v1 v2 w : ℤ) :
    ((0 ≤ v1 ∧ v1 < (gs.nbvertices : ℤ) ∧ 0 ≤ v2 ∧ v2 < (gs.nbvertices : ℤ)) →
      ((gs.add_edge v1 v2 w).1 = Except.error Err.weightNotSupported ↔ w ≠ 1)) ∧
    ((0 ≤ v1 ∧ v1 < (gm.nbvertices : ℤ) ∧ 0 ≤ v2 ∧ v2 < (gm.nbvertices : ℤ)) →
      ((gm.add_edge v1 v2 w).1 = Except.error Err.weightNotSupported ↔ w < 1)) := by
  constructor
  · rintro ⟨h1, h1n, h2, h2n⟩
    constructor
    · intro herr
      intro hw1
      subst hw1
      unfold AdjacencySetGraph.add_edge at herr
      rw [if_neg (by omega), if_neg (by omega)] at herr
      cases hh : (gs.nodeAt v1.toNat).add_edge v2 with
      | error e =>
        rw [hh] at herr
        have he := nodeAddEdge_error _ _ _ hh
        subst he
        simp at herr
      | ok n1 =>
        rw [hh] at herr
        dsimp only at herr
        by_cases hd : gs.directed = false
        · rw [if_pos hd] at herr
          cases hh2 : (AdjacencySetGraph.mk gs.nbvertices gs.directed
              (gs.vertex_list.set v1.toNat n1)).nodeAt v2.toNat |>.add_edge v1 with
          | error e2 =>
            rw [hh2] at herr
            have he2 := nodeAddEdge_error _ _ _ hh2
            subst he2
            simp at herr
          | ok n2 =>
            rw [hh2] at herr
            simp at herr
        · rw [if_neg hd] at herr
          simp at herr
    · intro hw
      rw [setAddEdge_badweight _ _ _ _ (by omega) hw]
  · rintro ⟨h1, h1n, h2, h2n⟩
    constructor
    · intro herr
      by_contra hw1
      rw [matAddEdge_ok _ _ _ _ (by omega) hw1] at herr
      simp at herr
    · intro hw
      rw [matAddEdge_badweight _ _ _ _ (by omega) hw]

/-- Claim C5: self-loops are asymmetric: for every in-bounds v, the
set-backed `add_edge(v, v, 1)` answers with the self-loop error, while
the matrix-backed `add_edge(v, v, w)` with w ≥ 1 succeeds and afterwards
`get_edge_weight(v, v)` returns w. -/
theorem self_loop_asymmetry (gs : AdjacencySetGraph) (gm : AdjacencyMatrixGraph)
    (v w : ℤ) (hWFs : gs.WF) (hWFm : gm.WF) (h0 : 0 ≤ v)
    (hs : v < (gs.nbvertices : ℤ)) (hm : v < (gm.nbvertices : ℤ)) (hw : 1 ≤ w) :
    (gs.add_edge v v 1).1 = Except.error Err.selfLoop ∧
    ∃ gm' : AdjacencyMatrixGraph, gm.add_edge v v w = (Except.ok (), gm') ∧
      gm'.get_edge_weight v v = Except.ok w := by
  constructor
  · rw [setAddEdge_selfloop gs v hWFs h0 hs]
  · refine ⟨_, matAddEdge_ok _ _ _ _ (by omega) (by omega), ?_⟩
    have hWF' : (AdjacencyMatrixGraph.mk gm.nbvertices gm.directed
        (if gm.directed = false
         then matSet (matSet gm.matrix v.toNat v.toNat w) v.toNat v.toNat w
         else matSet gm.matrix v.toNat v.toNat w)).WF := by
      have := matAddEdge_WF gm v v w hWFm
      rw [matAddEdge_ok _ _ _ _ (by omega) (by omega)] at this
      exact this
    rw [matGetEdgeWeight_eval _ _ _ hWF' h0 hm h0 hm]
    dsimp only
    obtain ⟨p1, _, p3⟩ :=
      matGet_matSet_pair gm.matrix gm.nbvertices v.toNat v.toNat w hWFm.1 hWFm.2
        (by omega) (by omega)
    by_cases hd : gm.directed = false
    · rw [if_pos hd, p1]
    · rw [if_neg hd, p3]

lemma setAfter_nodeAt_fst (g : AdjacencySetGraph) (v1 v2 : ℤ)
    (ha : v1.toNat < g.vertex_list.length) (hab : v1.toNat ≠ v2.toNat) :
    (setAfter g v1 v2).nodeAt v1.toNat =
      ⟨(g.nodeAt v1.toNat).vertexid, insert v2 (g.nodeAt v1.toNat).adjacency_set⟩ := by
  unfold setAfter AdjacencySetGraph.nodeAt
  dsimp only
  by_cases hd : g.directed = false
  · rw [if_pos hd]
    dsimp only
    rw [getD_set_ne _ _ _ _ _ (fun hh => hab hh.symm), getD_set_self _ _ _ _ ha]
  · rw [if_neg hd]
    dsimp only
    rw [getD_set_self _ _ _ _ ha]

lemma setAfter_nodeAt_snd (g : AdjacencySetGraph) (v1 v2 : ℤ)
    (hb : v2.toNat < g.vertex_list.length) (hd : g.directed = false) :
    (setAfter g v1 v2).nodeAt v2.toNat =
      ⟨(g.nodeAt v2.toNat).vertexid, insert v1 (g.nodeAt v2.toNat).adjacency_set⟩ := by
  unfold setAfter AdjacencySetGraph.nodeAt
  dsimp only
  rw [if_pos hd]
  dsimp only
  rw [getD_set_self _ _ _ _ (by rw [List.length_set]; exact hb)]

/-- Claim C1: in the adjacency-matrix representation, for all in-bounds
v1, v2 and weight ≥ 1, after a successful `add_edge(v1, v2, weight)` the
query `get_edge_weight(v1, v2)` returns the weight, and if the graph is
undirected `get_edge_weight(v2, v1)` returns it as well. -/
theorem matrix_add_edge_sets_weight (g g' : AdjacencyMatrixGraph) (v1 v2 w : ℤ)
    (hWF : g.WF) (h1 : 0 ≤ v1) (h1n : v1 < (g.nbvertices : ℤ))
    (h2 : 0 ≤ v2) (h2n : v2 < (g.nbvertices : ℤ)) (hw : 1 ≤ w)
    (hadd : g.add_edge v1 v2 w = (Except.ok (), g')) :
    g'.get_edge_weight v1 v2 = Except.ok w ∧
    (g.directed = false → g'.get_edge_weight v2 v1 = Except.ok w) := by
  have hb : ¬((g.nbvertices : ℤ) ≤ v1 ∨ (g.nbvertices : ℤ) ≤ v2 ∨ v1 < 0 ∨ v2 < 0) := by
    omega
  have hwlt : ¬ w < 1 := by omega
  have h2' : (g.add_edge v1 v2 w).2 = g' := by rw [hadd]
  have hWFg' : g'.WF := h2' ▸ matAddEdge_WF g v1 v2 w hWF
  rw [matAddEdge_ok _ _ _ _ hb hwlt] at hadd
  injection hadd with hfst hsnd
  subst hsnd
  obtain ⟨p1, p2, p3⟩ :=
    matGet_matSet_pair g.matrix g.nbvertices v1.toNat v2.toNat w hWF.1 hWF.2
      (by omega) (by omega)
  by_cases hd : g.directed = false
  · constructor
    · rw [matGetEdgeWeight_eval _ _ _ hWFg' h1 h1n h2 h2n]
      dsimp only
      rw [if_pos hd, p1]
    · intro _
      rw [matGetEdgeWeight_eval _ _ _ hWFg' h2 h2n h1 h1n]
      dsimp only
      rw [if_pos hd, p2]
  · constructor
    · rw [matGetEdgeWeight_eval _ _ _ hWFg' h1 h1n h2 h2n]
      dsimp only
      rw [if_neg hd, p3]
    · intro hdd
      exact absurd hdd hd

/-- Claim C2: in the adjacency-set representation, for all in-bounds
v1 ≠ v2, after a successful `add_edge(v1, v2)` the query
`get_adjacent_vertices(v1)` contains v2, and if the graph is undirected
`get_adjacent_vertices(v2)` contains v1 as well. -/
theorem set_add_edge_adds_adjacency (g g' : AdjacencySetGraph) (v1 v2 : ℤ)
    (hWF : g.WF) (h1 : 0 ≤ v1) (h1n : v1 < (g.nbvertices : ℤ))
    (h2 : 0 ≤ v2) (h2n : v2 < (g.nbvertices : ℤ)) (hne : v1 ≠ v2)
    (hadd : g.add_edge v1 v2 1 = (Except.ok (), g')) :
    (∃ l, g'.get_adjacent_vertices v1 = Except.ok l ∧ v2 ∈ l) ∧
    (g.directed = false →
      ∃ l, g'.get_adjacent_vertices v2 = Except.ok l ∧ v1 ∈ l) := by
  have hlen := hWF.1
  have ha : v1.toNat < g.vertex_list.length := by omega
  have hb : v2.toNat < g.vertex_list.length := by omega
  have hab : v1.toNat ≠ v2.toNat := by omega
  rw [setAddEdge_eq g v1 v2 hWF h1 h1n h2 h2n hne] at hadd
  injection hadd with hfst hsnd
  subst hsnd
  constructor
  · refine ⟨_, setGetAdj_eval _ _ h1 (by rw [setAfter_nbvertices]; omega), ?_⟩
    rw [setAfter_nodeAt_fst g v1 v2 ha hab]
    unfold Node.get_adjacent_vertices
    exact (Finset.mem_sort _).mpr (Finset.mem_insert_self _ _)
  · intro hd
    refine ⟨_, setGetAdj_eval _ _ h2 (by rw [setAfter_nbvertices]; omega), ?_⟩
    rw [setAfter_nodeAt_snd g v1 v2 hb hd]
    unfold Node.get_adjacent_vertices
    exact (Finset.mem_sort _).mpr (Finset.mem_insert_self _ _)

/-- Claim C6: in both representations, for every in-bounds v on a
well-formed (hence reachable) state, `get_indegree(v)` equals the number
of distinct sources u in [0, N) whose `get_adjacent_vertices(u)` answer
contains v. -/
theorem indegree_consistency (gs : AdjacencySetGraph) (gm : AdjacencyMatrixGraph)
    (v : ℤ) (hWFs : gs.WF) (hWFm : gm.WF) :
    (0 ≤ v → v < (gs.nbvertices : ℤ) →
      gs.get_indegree v =
        Except.ok (sourcesInto gs.nbvertices gs.get_adjacent_vertices v)) ∧
    (0 ≤ v → v < (gm.nbvertices : ℤ) →
      gm.get_indegree v =
        Except.ok (sourcesInto gm.nbvertices gm.get_adjacent_vertices v)) := by
  constructor
  · intro h0 hn
    unfold AdjacencySetGraph.get_indegree sourcesInto
    rw [if_neg (by omega)]
  · intro h0 hn
    unfold AdjacencyMatrixGraph.get_indegree sourcesInto
    rw [if_neg (by omega)]
    refine congrArg Except.ok ?_
    refine congrArg List.length ?_
    refine List.filter_congr ?_
    intro u hu
    rw [List.mem_range] at hu
    rw [matGetAdj_eval gm (u : ℤ) (by omega) (by omega)]
    dsimp only
    simp only [Int.toNat_natCast]
    rw [decide_eq_decide]
    constructor
    · intro hmat
      rw [List.mem_map]
      refine ⟨v.toNat, ?_, by omega⟩
      rw [List.mem_filter, List.mem_range]
      exact ⟨by omega, decide_eq_true hmat⟩
    · intro hv'
      rw [List.mem_map] at hv'
      obtain ⟨i, hi, hiv⟩ := hv'
      rw [List.mem_filter, List.mem_range] at hi
      have hieq : i = v.toNat := by omega
      subst hieq
      exact of_decide_eq_true hi.2

lemma setAfter_idem (g : AdjacencySetGraph) (v1 v2 : ℤ) (hWF : g.WF)
    (h1 : 0 ≤ v1) (h1n : v1 < (g.nbvertices : ℤ))
    (h2 : 0 ≤ v2) (h2n : v2 < (g.nbvertices : ℤ)) (hne : v1 ≠ v2) :
    setAfter (setAfter g v1 v2) v1 v2 = setAfter g v1 v2 := by
  have hlen := hWF.1
  have ha : v1.toNat < g.vertex_list.length := by omega
  have hbn : v2.toNat < g.vertex_list.length := by omega
  have hab : v1.toNat ≠ v2.toNat := by omega
  have hba : v2.toNat ≠ v1.toNat := fun h => hab h.symm
  set NA : Node :=
    ⟨(g.nodeAt v1.toNat).vertexid, insert v2 (g.nodeAt v1.toNat).adjacency_set⟩ with hNA
  set NB : Node :=
    ⟨(g.nodeAt v2.toNat).vertexid, insert v1 (g.nodeAt v2.toNat).adjacency_set⟩ with hNB
  have hNA2 : (⟨NA.vertexid, insert v2 NA.adjacency_set⟩ : Node) = NA := by
    rw [hNA]
    dsimp only
    rw [Finset.insert_idem]
  have hNB2 : (⟨NB.vertexid, insert v1 NB.adjacency_set⟩ : Node) = NB := by
    rw [hNB]
    dsimp only
    rw [Finset.insert_idem]
  set G1 := setAfter g v1 v2 with hG1
  have hdir : G1.directed = g.directed := by
    rw [hG1]
    exact setAfter_directed g v1 v2
  have hn1 : G1.nodeAt v1.toNat = NA := by
    rw [hG1]
    exact setAfter_nodeAt_fst g v1 v2 ha hab
  by_cases hd : g.directed = false
  · have hlist : G1.vertex_list = (g.vertex_list.set v1.toNat NA).set v2.toNat NB := by
      rw [hG1]
      unfold setAfter
      rw [if_pos hd]
    have hn2 : G1.nodeAt v2.toNat = NB := by
      rw [hG1]
      exact setAfter_nodeAt_snd g v1 v2 hbn hd
    unfold setAfter
    dsimp only
    rw [hdir, if_pos hd, hn1, hn2, hNA2, hNB2, hlist]
    have e1 : ((g.vertex_list.set v1.toNat NA).set v2.toNat NB).set v1.toNat NA
        = (g.vertex_list.set v1.toNat NA).set v2.toNat NB := by
      rw [List.set_comm NB NA _ hba, List.set_set]
    rw [e1, List.set_set, ← hlist, ← hdir]
  · have hlist : G1.vertex_list = g.vertex_list.set v1.toNat NA := by
      rw [hG1]
      unfold setAfter
      rw [if_neg hd]
    unfold setAfter
    dsimp only
    rw [hdir, if_neg hd, hn1, hNA2, hlist, List.set_set, ← hlist, ← hdir]

/-- Claim C7: in both representations, whenever `add_edge` answers with an
error the state component of the call is the unchanged input graph: no
partial mutation happens (in particular no forward edge survives a failed
undirected set-backed call), so the instance stays usable. -/
theorem add_edge_error_atomic (gs : AdjacencySetGraph) (gm : AdjacencyMatrixGraph)
    (v1 v2 w : ℤ) (hWF : gs.WF) :
    (∀ e : Err, (gs.add_edge v1 v2 w).1 = Except.error e →
      (gs.add_edge v1 v2 w).2 = gs) ∧
    (∀ e : Err, (gm.add_edge v1 v2 w).1 = Except.error e →
      (gm.add_edge v1 v2 w).2 = gm) := by
  constructor
  · intro e he
    by_cases hb : (gs.nbvertices : ℤ) ≤ v1 ∨ (gs.nbvertices : ℤ) ≤ v2 ∨ v1 < 0 ∨ v2 < 0
    · rw [setAddEdge_oob _ _ _ _ hb]
    · by_cases hw : w ≠ 1
      · rw [setAddEdge_badweight _ _ _ _ hb hw]
      · push_neg at hw
        subst hw
        by_cases hv : v1 = v2
        · subst hv
          rw [setAddEdge_selfloop gs v1 hWF (by omega) (by omega)]
        · exfalso
          rw [setAddEdge_eq gs v1 v2 hWF (by omega) (by omega) (by omega) (by omega) hv]
            at he
          simp at he
  · intro e he
    by_cases hb : (gm.nbvertices : ℤ) ≤ v1 ∨ (gm.nbvertices : ℤ) ≤ v2 ∨ v1 < 0 ∨ v2 < 0
    · rw [matAddEdge_oob _ _ _ _ hb]
    · by_cases hw : w < 1
      · rw [matAddEdge_badweight _ _ _ _ hb hw]
      · exfalso
        rw [matAddEdge_ok _ _ _ _ hb hw] at he
        simp at he

/-- Claim C8: in both representations, on any arguments on which
`add_edge` succeeds, running the same call a second time leaves the state
exactly as after the first call. -/
theorem add_edge_idempotent (gs gs' : AdjacencySetGraph)
    (gm gm' : AdjacencyMatrixGraph) (v1 v2 w : ℤ)
    (hWFs : gs.WF) (hWFm : gm.WF) :
    (gs.add_edge v1 v2 w = (Except.ok (), gs') →
      gs'.add_edge v1 v2 w = (Except.ok (), gs')) ∧
    (gm.add_edge v1 v2 w = (Except.ok (), gm') →
      gm'.add_edge v1 v2 w = (Except.ok (), gm')) := by
  constructor
  · intro h
    obtain ⟨hb1, hb2, hb3, hb4, hw, hne⟩ := setAddEdge_ok_inv gs v1 v2 w gs' hWFs h
    subst hw
    rw [setAddEdge_eq gs v1 v2 hWFs hb1 hb2 hb3 hb4 hne] at h
    injection h with hfst hsnd
    subst hsnd
    have hWF2 := setAfter_WF gs v1 v2 hWFs hb1 hb2 hb3 hb4
    rw [setAddEdge_eq (setAfter gs v1 v2) v1 v2 hWF2 hb1
      (by rw [setAfter_nbvertices]; exact hb2) hb3
      (by rw [setAfter_nbvertices]; exact hb4) hne]
    rw [setAfter_idem gs v1 v2 hWFs hb1 hb2 hb3 hb4 hne]
  · intro h
    obtain ⟨hb1, hb2, hb3, hb4, hw⟩ := matAddEdge_ok_inv gm v1 v2 w gm' h
    have hb : ¬((gm.nbvertices : ℤ) ≤ v1 ∨ (gm.nbvertices : ℤ) ≤ v2 ∨ v1 < 0 ∨ v2 < 0) := by
      omega
    have hwlt : ¬ w < 1 := by omega
    rw [matAddEdge_ok _ _ _ _ hb hwlt] at h
    injection h with hfst hsnd
    subst hsnd
    rw [matAddEdge_ok _ _ _ _ (by exact hb) (by exact hwlt)]
    dsimp only
    have ham : v1.toNat < gm.matrix.length := by
      have := hWFm.1
      omega
    have hbm : v2.toNat < gm.matrix.length := by
      have := hWFm.1
      omega
    by_cases hd : gm.directed = false
    · simp only [if_pos hd]
      by_cases hab : v1.toNat = v2.toNat
      · rw [hab]
        simp only [matSet_idem]
      · rw [matSet_pair_idem gm.matrix v1.toNat v2.toNat w ham hbm hab]
    · simp only [if_neg hd]
      rw [matSet_idem]

/-- Claim C10: the matrix-backed `get_edge_weight` does no bounds
validation of its own: a vertex argument in [-N, -1] silently wraps to
index N + argument (for either coordinate), while an argument less than
-N or at least N produces the raw index error, not the out-of-bounds
error the validating operations use. -/
theorem matrix_get_edge_weight_raw_indexing (g : AdjacencyMatrixGraph)
    (v1 v2 : ℤ) (hWF : g.WF) :
    (-(g.nbvertices : ℤ) ≤ v1 ∧ v1 < 0 →
      g.get_edge_weight v1 v2 = g.get_edge_weight (v1 + (g.nbvertices : ℤ)) v2) ∧
    (0 ≤ v1 ∧ v1 < (g.nbvertices : ℤ) ∧ -(g.nbvertices : ℤ) ≤ v2 ∧ v2 < 0 →
      g.get_edge_weight v1 v2 = g.get_edge_weight v1 (v2 + (g.nbvertices : ℤ))) ∧
    (v1 < -(g.nbvertices : ℤ) ∨ (g.nbvertices : ℤ) ≤ v1 →
      g.get_edge_weight v1 v2 = Except.error Err.indexError) ∧
    (0 ≤ v1 ∧ v1 < (g.nbvertices : ℤ) →
      v2 < -(g.nbvertices : ℤ) ∨ (g.nbvertices : ℤ) ≤ v2 →
      g.get_edge_weight v1 v2 = Except.error Err.indexError) := by
  have hlen : g.matrix.length = g.nbvertices := hWF.1
  have hrow : ∀ k, k < g.matrix.length → (g.matrix.getD k []).length = g.nbvertices :=
    fun k hk => hWF.2 _ (getD_mem _ _ _ hk)
  refine ⟨?_, ?_, ?_, ?_⟩
  · rintro ⟨hlo, hhi⟩
    unfold AdjacencyMatrixGraph.get_edge_weight
    rw [hlen]
    rw [pyIndex_neg _ _ hlo hhi, pyIndex_ok _ _ (by omega) (by omega)]
  · rintro ⟨hp1, hp2, hlo, hhi⟩
    unfold AdjacencyMatrixGraph.get_edge_weight
    rw [hlen]
    rw [pyIndex_ok _ _ hp1 hp2]
    dsimp only
    rw [hrow v1.toNat (by omega)]
    rw [pyIndex_neg _ _ hlo hhi, pyIndex_ok _ _ (by omega) (by omega)]
  · intro h
    unfold AdjacencyMatrixGraph.get_edge_weight
    rw [hlen]
    rw [pyIndex_err _ _ (by omega)]
  · rintro ⟨hp1, hp2⟩ h
    unfold AdjacencyMatrixGraph.get_edge_weight
    rw [hlen]
    rw [pyIndex_ok _ _ hp1 hp2]
    dsimp only
    rw [hrow v1.toNat (by omega)]
    rw [pyIndex_err _ _ (by omega)]

/-! ### Witnesses: the claim theorems applied at concrete inputs -/

/-- Witness for C1 on a 3-vertex undirected matrix graph. -/
theorem matrix_add_edge_sets_weight_witness :
    ((AdjacencyMatrixGraph.init 3 false).add_edge 0 1 5).2.get_edge_weight 0 1 =
        Except.ok 5 ∧
    ((AdjacencyMatrixGraph.init 3 false).directed = false →
      ((AdjacencyMatrixGraph.init 3 false).add_edge 0 1 5).2.get_edge_weight 1 0 =
        Except.ok 5) :=
  matrix_add_edge_sets_weight (AdjacencyMatrixGraph.init 3 false)
    ((AdjacencyMatrixGraph.init 3 false).add_edge 0 1 5).2 0 1 5
    (by decide) (by decide) (by decide) (by decide) (by decide) (by decide) rfl

/-- Witness for C2 on a 3-vertex undirected set graph. -/
theorem set_add_edge_adds_adjacency_witness :
    (∃ l, ((AdjacencySetGraph.init 3 false).add_edge 0 1 1).2.get_adjacent_vertices 0 =
        Except.ok l ∧ (1 : ℤ) ∈ l) ∧
    ((AdjacencySetGraph.init 3 false).directed = false →
      ∃ l, ((AdjacencySetGraph.init 3 false).add_edge 0 1 1).2.get_adjacent_vertices 1 =
        Except.ok l ∧ (0 : ℤ) ∈ l) :=
  set_add_edge_adds_adjacency (AdjacencySetGraph.init 3 false)
    ((AdjacencySetGraph.init 3 false).add_edge 0 1 1).2 0 1
    (by decide) (by decide) (by decide) (by decide) (by decide) (by decide) rfl

/-- Witness for C3 at the spec's example arguments on 2-vertex graphs. -/
theorem out_of_bounds_rejection_witness :
    (((-1 : ℤ) < 0 ∨ ((AdjacencySetGraph.init 2 false).nbvertices : ℤ) ≤ -1 ∨
        (0 : ℤ) < 0 ∨ ((AdjacencySetGraph.init 2 false).nbvertices : ℤ) ≤ 0) →
      ((AdjacencySetGraph.init 2 false).add_edge (-1) 0 1).1 =
        Except.error Err.outOfBounds) ∧
    (((-1 : ℤ) < 0 ∨ ((AdjacencySetGraph.init 2 false).nbvertices : ℤ) ≤ -1) →
      (AdjacencySetGraph.init 2 false).get_adjacent_vertices (-1) =
        Except.error Err.outOfBounds ∧
      (AdjacencySetGraph.init 2 false).get_indegree (-1) =
        Except.error Err.outOfBounds) ∧
    (((-1 : ℤ) < 0 ∨ ((AdjacencyMatrixGraph.init 2 false).nbvertices : ℤ) ≤ -1 ∨
        (0 : ℤ) < 0 ∨ ((AdjacencyMatrixGraph.init 2 false).nbvertices : ℤ) ≤ 0) →
      ((AdjacencyMatrixGraph.init 2 false).add_edge (-1) 0 1).1 =
        Except.error Err.outOfBounds) ∧
    (((-1 : ℤ) < 0 ∨ ((AdjacencyMatrixGraph.init 2 false).nbvertices : ℤ) ≤ -1) →
      (AdjacencyMatrixGraph.init 2 false).get_adjacent_vertices (-1) =
        Except.error Err.outOfBounds ∧
      (AdjacencyMatrixGraph.init 2 false).get_indegree (-1) =
        Except.error Err.outOfBounds) :=
  out_of_bounds_rejection (AdjacencySetGraph.init 2 false)
    (AdjacencyMatrixGraph.init 2 false) (-1) (-1) 0 1 (by decide) (by decide)

/-- Witness for C4: weight 0 is rejected by both representations at
in-bounds vertices. -/
theorem weight_not_supported_iff_witness :
    ((0 ≤ (0 : ℤ) ∧ (0 : ℤ) < ((AdjacencySetGraph.init 2 false).nbvertices : ℤ) ∧
        0 ≤ (1 : ℤ) ∧ (1 : ℤ) < ((AdjacencySetGraph.init 2 false).nbvertices : ℤ)) →
      (((AdjacencySetGraph.init 2 false).add_edge 0 1 0).1 =
          Except.error Err.weightNotSupported ↔ (0 : ℤ) ≠ 1)) ∧
    ((0 ≤ (0 : ℤ) ∧ (0 : ℤ) < ((AdjacencyMatrixGraph.init 2 false).nbvertices : ℤ) ∧
        0 ≤ (1 : ℤ) ∧ (1 : ℤ) < ((AdjacencyMatrixGraph.init 2 false).nbvertices : ℤ)) →
      (((AdjacencyMatrixGraph.init 2 false).add_edge 0 1 0).1 =
          Except.error Err.weightNotSupported ↔ (0 : ℤ) < 1)) :=
  weight_not_supported_iff (AdjacencySetGraph.init 2 false)
    (AdjacencyMatrixGraph.init 2 false) 0 1 0

/-- Witness for C5 at the spec's example: vertex 2, weight 5. -/
theorem self_loop_asymmetry_witness :
    ((AdjacencySetGraph.init 3 false).add_edge 2 2 1).1 = Except.error Err.selfLoop ∧
    ∃ gm' : AdjacencyMatrixGraph,
      (AdjacencyMatrixGraph.init 3 false).add_edge 2 2 5 = (Except.ok (), gm') ∧
      gm'.get_edge_weight 2 2 = Except.ok 5 :=
  self_loop_asymmetry (AdjacencySetGraph.init 3 false)
    (AdjacencyMatrixGraph.init 3 false) 2 5
    (by decide) (by decide) (by decide) (by decide) (by decide) (by decide)

/-- Witness for C6 on graphs holding one edge into vertex 1. -/
theorem indegree_consistency_witness :
    (0 ≤ (1 : ℤ) →
      (1 : ℤ) < ((((AdjacencySetGraph.init 3 true).add_edge 0 1 1).2).nbvertices : ℤ) →
      (((AdjacencySetGraph.init 3 true).add_edge 0 1 1).2).get_indegree 1 =
        Except.ok (sourcesInto
          (((AdjacencySetGraph.init 3 true).add_edge 0 1 1).2).nbvertices
          (((AdjacencySetGraph.init 3 true).add_edge 0 1 1).2).get_adjacent_vertices 1)) ∧
    (0 ≤ (1 : ℤ) →
      (1 : ℤ) < ((((AdjacencyMatrixGraph.init 3 true).add_edge 0 1 43).2).nbvertices : ℤ) →
      (((AdjacencyMatrixGraph.init 3 true).add_edge 0 1 43).2).get_indegree 1 =
        Except.ok (sourcesInto
          (((AdjacencyMatrixGraph.init 3 true).add_edge 0 1 43).2).nbvertices
          (((AdjacencyMatrixGraph.init 3 true).add_edge 0 1 43).2).get_adjacent_vertices 1)) :=
  indegree_consistency ((AdjacencySetGraph.init 3 true).add_edge 0 1 1).2
    ((AdjacencyMatrixGraph.init 3 true).add_edge 0 1 43).2 1 (by decide) (by decide)

/-- Witness for C7: a failing out-of-bounds call leaves both graphs
unchanged. -/
theorem add_edge_error_atomic_witness :
    ((AdjacencySetGraph.init 2 false).add_edge (-1) 0 1).2 =
        AdjacencySetGraph.init 2 false ∧
    ((AdjacencyMatrixGraph.init 2 false).add_edge (-1) 0 1).2 =
        AdjacencyMatrixGraph.init 2 false :=
  ⟨(add_edge_error_atomic (AdjacencySetGraph.init 2 false)
      (AdjacencyMatrixGraph.init 2 false) (-1) 0 1 (by decide)).1
      Err.outOfBounds (by decide),
   (add_edge_error_atomic (AdjacencySetGraph.init 2 false)
      (AdjacencyMatrixGraph.init 2 false) (-1) 0 1 (by decide)).2
      Err.outOfBounds (by decide)⟩

/-- Witness for C8 on 3-vertex undirected graphs with weight 1. -/
theorem add_edge_idempotent_witness :
    ((AdjacencySetGraph.init 3 false).add_edge 0 1 1 =
        (Except.ok (), ((AdjacencySetGraph.init 3 false).add_edge 0 1 1).2) →
      (((AdjacencySetGraph.init 3 false).add_edge 0 1 1).2).add_edge 0 1 1 =
        (Except.ok (), ((AdjacencySetGraph.init 3 false).add_edge 0 1 1).2)) ∧
    ((AdjacencyMatrixGraph.init 3 false).add_edge 0 1 1 =
        (Except.ok (), ((AdjacencyMatrixGraph.init 3 false).add_edge 0 1 1).2) →
      (((AdjacencyMatrixGraph.init 3 false).add_edge 0 1 1).2).add_edge 0 1 1 =
        (Except.ok (), ((AdjacencyMatrixGraph.init 3 false).add_edge 0 1 1).2)) :=
  add_edge_idempotent (AdjacencySetGraph.init 3 false)
    ((AdjacencySetGraph.init 3 false).add_edge 0 1 1).2
    (AdjacencyMatrixGraph.init 3 false)
    ((AdjacencyMatrixGraph.init 3 false).add_edge 0 1 1).2 0 1 1
    (by decide) (by decide)

/-- Witness for C10 on a 3-vertex matrix graph with arguments -1 and 0. -/
theorem matrix_get_edge_weight_raw_indexing_witness :
    (-(((AdjacencyMatrixGraph.init 3 false).nbvertices : ℤ)) ≤ -1 ∧ (-1 : ℤ) < 0 →
      (AdjacencyMatrixGraph.init 3 false).get_edge_weight (-1) 0 =
        (AdjacencyMatrixGraph.init 3 false).get_edge_weight
          (-1 + ((AdjacencyMatrixGraph.init 3 false).nbvertices : ℤ)) 0) ∧
    (0 ≤ (-1 : ℤ) ∧ (-1 : ℤ) < ((AdjacencyMatrixGraph.init 3 false).nbvertices : ℤ) ∧
        -(((AdjacencyMatrixGraph.init 3 false).nbvertices : ℤ)) ≤ 0 ∧ (0 : ℤ) < 0 →
      (AdjacencyMatrixGraph.init 3 false).get_edge_weight (-1) 0 =
        (AdjacencyMatrixGraph.init 3 false).get_edge_weight (-1)
          (0 + ((AdjacencyMatrixGraph.init 3 false).nbvertices : ℤ))) ∧
    ((-1 : ℤ) < -(((AdjacencyMatrixGraph.init 3 false).nbvertices : ℤ)) ∨
        ((AdjacencyMatrixGraph.init 3 false).nbvertices : ℤ) ≤ -1 →
      (AdjacencyMatrixGraph.init 3 false).get_edge_weight (-1) 0 =
        Except.error Err.indexError) ∧
    (0 ≤ (-1 : ℤ) ∧ (-1 : ℤ) < ((AdjacencyMatrixGraph.init 3 false).nbvertices : ℤ) →
      ((0 : ℤ) < -(((AdjacencyMatrixGraph.init 3 false).nbvertices : ℤ)) ∨
        ((AdjacencyMatrixGraph.init 3 false).nbvertices : ℤ) ≤ 0) →
      (AdjacencyMatrixGraph.init 3 false).get_edge_weight (-1) 0 =
        Except.error Err.indexError) :=
  matrix_get_edge_weight_raw_indexing (AdjacencyMatrixGraph.init 3 false)
    (-1) 0 (by decide)

